import Mathlib

/-
Verification of the WeatherClockGTK core (src/main.c) against its
natural-language specification.  The C program is shallowly embedded:
pure helpers become Lean functions, the mutable AppData struct becomes
an explicit record threaded through each callback, GLib timers become
Option-valued fields recording whether a one-shot source is armed and
for how many seconds, and the libsoup pending request becomes an
Option-valued request identifier.
-/

set_option autoImplicit false

namespace WeatherClock

/-! ## Weather code tables (src/main.c lines 46-71) -/

/-- Embedding of get_weather_description (main.c lines 46-57): an ordered
chain of comparisons on the integer weather code. -/
def get_weather_description (code : Int) : String :=
  if code = 0 then "Clear"
  else if code ≤ 3 then "Cloudy"
  else if code ≤ 49 then "Foggy"
  else if code ≤ 59 then "Drizzle"
  else if code ≤ 69 then "Rain"
  else if code ≤ 79 then "Snow"
  else if code ≤ 84 then "Rain Shower"
  else if code ≤ 86 then "Snow Shower"
  else if code ≤ 99 then "Thunderstorm"
  else "Unknown"

/-- Embedding of get_weather_icon (main.c lines 60-71). -/
def get_weather_icon (code : Int) : String :=
  if code = 0 then "☀️"
  else if code ≤ 3 then "⛅"
  else if code ≤ 49 then "🌫️"
  else if code ≤ 59 then "🌦️"
  else if code ≤ 69 then "🌧️"
  else if code ≤ 79 then "❄️"
  else if code ≤ 84 then "🌦️"
  else if code ≤ 86 then "❄️"
  else if code ≤ 99 then "⛈️"
  else "❓"

/-- The fixed ordered range table as the specification words it:
0 maps to Clear, 1-3 to Cloudy, 4-49 to Foggy, 50-59 to Drizzle,
60-69 to Rain, 70-79 to Snow, 80-84 to Rain Shower, 85-86 to Snow Shower,
87-99 to Thunderstorm, and every other code to Unknown.  This definition
follows the words of the spec, for comparison with the code above. -/
def spec_weather_description (code : Int) : String :=
  if code = 0 then "Clear"
  else if 1 ≤ code ∧ code ≤ 3 then "Cloudy"
  else if 4 ≤ code ∧ code ≤ 49 then "Foggy"
  else if 50 ≤ code ∧ code ≤ 59 then "Drizzle"
  else if 60 ≤ code ∧ code ≤ 69 then "Rain"
  else if 70 ≤ code ∧ code ≤ 79 then "Snow"
  else if 80 ≤ code ∧ code ≤ 84 then "Rain Shower"
  else if 85 ≤ code ∧ code ≤ 86 then "Snow Shower"
  else if 87 ≤ code ∧ code ≤ 99 then "Thunderstorm"
  else "Unknown"

/-- The icon column of the range table in the specification, with the
glyph of each category taken from the code (the spec names categories,
not glyphs). -/
def spec_weather_icon (code : Int) : String :=
  if code = 0 then "☀️"
  else if 1 ≤ code ∧ code ≤ 3 then "⛅"
  else if 4 ≤ code ∧ code ≤ 49 then "🌫️"
  else if 50 ≤ code ∧ code ≤ 59 then "🌦️"
  else if 60 ≤ code ∧ code ≤ 69 then "🌧️"
  else if 70 ≤ code ∧ code ≤ 79 then "❄️"
  else if 80 ≤ code ∧ code ≤ 84 then "🌦️"
  else if 85 ≤ code ∧ code ≤ 86 then "❄️"
  else if 87 ≤ code ∧ code ≤ 99 then "⛈️"
  else "❓"

/-! ## Hourly window selection (src/main.c lines 371-503)

The raw hourly series is modelled as a list of rows, one per index of the
parallel arrays; each row carries the ISO time string and the decoded
temperature and weather code (the numeric payloads play no role in the
selection).  The C code parses the time string with atoi at byte offsets
0, 5, 8 and 11; atoi is embedded below. -/

/-- One row of the parallel hourly arrays.  The temperature is a C double
in the source; no claim depends on its value, so it is carried as an
integer payload here. -/
structure HourlyRow where
  time : String
  temp : Int
  code : Int
  deriving DecidableEq, Repr

/-- Digit-accumulating loop of C atoi. -/
def atoiDigits : List Char → Nat → Nat
  | c :: cs, acc =>
    if c.isDigit then atoiDigits cs (acc * 10 + (c.toNat - 48)) else acc
  | [], acc => acc

/-- Embedding of C atoi: skip leading whitespace, optional sign, then
leading digits; stops at the first non-digit. -/
def atoi (s : String) : Int :=
  match s.data.dropWhile Char.isWhitespace with
  | '-' :: cs => - (atoiDigits cs 0 : Int)
  | '+' :: cs => (atoiDigits cs 0 : Int)
  | cs => (atoiDigits cs 0 : Int)

/-- Embedding of the is_current_or_future computation for one time string
(main.c lines 392-417): requires at least 16 characters, parses year,
month, day and hour at offsets 0, 5, 8, 11, then the nested comparison
chain against the current local year, month, day and hour. -/
def row_is_current_or_future (cy cm cd ch : Int) (t : String) : Bool :=
  if 16 ≤ t.length then
    let year := atoi t
    let month := atoi (t.drop 5)
    let day := atoi (t.drop 8)
    let hour := atoi (t.drop 11)
    if year > cy then true
    else if year = cy ∧ month > cm then true
    else if year = cy ∧ month = cm ∧ day > cd then true
    else if year = cy ∧ month = cm ∧ day = cd then decide (hour ≥ ch)
    else false
  else false

/-- Index of the first element satisfying p, as the C search loop with
break computes it (main.c lines 386-424); none when no element matches. -/
def first_future_index (p : String → Bool) : List String → Option Nat
  | [] => none
  | t :: ts => if p t then some 0 else (first_future_index p ts).map (· + 1)

/-- start_index of main.c line 375: initialised to 0 and overwritten by
the first matching index when one exists. -/
def find_start_index (cy cm cd ch : Int) (times : List String) : Nat :=
  (first_future_index (row_is_current_or_future cy cm cd ch) times).getD 0

/-- hours_to_show of main.c line 372. -/
def hours_to_show : Nat := 6

/-- The display loop of main.c lines 430-503: rows at indices
start_index, start_index + 1, ... while fewer than hours_to_show rows
are taken and the index is in bounds. -/
def select_window (cy cm cd ch : Int) (rows : List HourlyRow) : List HourlyRow :=
  (rows.drop (find_start_index cy cm cd ch (rows.map (fun r => r.time)))).take hours_to_show

/-! ## JSON payload model and the parser (src/main.c lines 143-506)

json-glib values are modelled by an inductive type.  JSON numbers appear
either as gint64 or as gdouble in json-glib; every use of a gdouble in the
claims goes through a C cast to an integer, so the jfloat constructor
carries the value after that cast. -/

inductive JsonValue where
  | jnull
  | jbool (b : Bool)
  | jint (n : Int)
  | jfloat (n : Int)
  | jstr (s : String)
  | jarr (elems : List JsonValue)
  | jobj (members : List (String × JsonValue))

/-- json_object_get_member and json_object_has_member over the ordered
member list (json-glib keeps members in insertion order). -/
def member_lookup (key : String) : List (String × JsonValue) → Option JsonValue
  | [] => none
  | (k, v) :: ms => if k = key then some v else member_lookup key ms

/-- The keys string built at main.c lines 271-279 and 327-335: the member
names joined by a comma and a space, in order. -/
def keys_string (ms : List (String × JsonValue)) : String :=
  String.intercalate ", " (ms.map (fun m => m.1))

/-- g_type_name of json_node_get_value_type for each node shape.  A null
node has value type G_TYPE_INVALID, for which g_type_name yields NULL and
the %s directive of printf renders the text (null). -/
def gtype_name : JsonValue → String
  | .jnull => "(null)"
  | .jbool _ => "gboolean"
  | .jint _ => "gint64"
  | .jfloat _ => "gdouble"
  | .jstr _ => "gchararray"
  | .jarr _ => "JsonArray"
  | .jobj _ => "JsonObject"

/-- The snprintf calls of parse_weather_json write into 512-byte stack
buffers: at most 511 characters of the formatted message are kept. -/
def snprintf512 (s : String) : String := String.mk (s.data.take 511)

/-- The message formatted by the API-error branch (main.c lines 266-313),
before truncation by the 512-byte buffer.  Cases follow the C type
dispatch on the error node: boolean true with a string reason, boolean
true with a non-string or absent reason, boolean false, string, and any
other node type reported by its type name; every message carries the
member keys. -/
def api_error_raw (ms : List (String × JsonValue)) (ev : JsonValue) : String :=
  let keys := keys_string ms
  match ev with
  | .jbool true =>
    match member_lookup "reason" ms with
    | some (.jstr r) => "API Error: " ++ (r ++ (" (Keys: " ++ (keys ++ ")")))
    | some _ => "API Error: Unknown (Keys: " ++ (keys ++ ")")
    | none => "API Error: API returned error=true but no reason field (Keys: " ++ (keys ++ ")")
  | .jbool false => "API Error: API returned error=false (should not happen) (Keys: " ++ (keys ++ ")")
  | .jstr s => "API Error: " ++ (s ++ (" (Keys: " ++ (keys ++ ")")))
  | other => "API Error: Error type: " ++ (gtype_name other ++ (" (Keys: " ++ (keys ++ ")")))

/-- True on the error-node shapes the C code does not recognise: neither
boolean nor string. -/
def unrecognized_error_type : JsonValue → Bool
  | .jbool _ => false
  | .jstr _ => false
  | _ => true

/-- Outcome of parse_weather_json.  The labels follow the error labels
the C function appends to the weather box; the success case carries the
three validated parallel arrays of the hourly object (their windowing,
main.c lines 371-503, is formalised by select_window above). -/
inductive ParseResult where
  | invalidRoot
  | apiError (msg : String)
  | missingHourly (msg : String)
  | hourlyNotObject
  | incompleteData
  | forecast (times temps codes : List JsonValue)

/-- Projection used to state executable facts about a ParseResult without
comparing forecast payloads. -/
def ParseResult.apiErrorMsg : ParseResult → Option String
  | .apiError m => some m
  | _ => none

/-- Embedding of parse_weather_json (main.c lines 143-506) from the
already-parsed root JSON node onwards; the earlier string-level branches
(empty input, syntactically invalid JSON, missing root) are upstream of
every claim about this function.  The timezone and utc_offset_seconds
extraction (lines 208-263) only mutates AppData and the config file and
returns nothing, so it does not affect the result value modelled here.
A non-object root makes json_node_get_object return NULL (the
Invalid-weather-data-format label); a non-object hourly member or a
missing or non-array member array makes the corresponding json-glib
getter return NULL. -/
def parse_weather_json (root : JsonValue) : ParseResult :=
  match root with
  | .jobj ms =>
    match member_lookup "error" ms with
    | some ev => .apiError (snprintf512 (api_error_raw ms ev))
    | none =>
      match member_lookup "hourly" ms with
      | none => .missingHourly (snprintf512 ("No hourly data. Keys: " ++ keys_string ms))
      | some (.jobj hm) =>
        match member_lookup "time" hm, member_lookup "temperature_2m" hm,
              member_lookup "weathercode" hm with
        | some (.jarr times), some (.jarr temps), some (.jarr codes) =>
          .forecast times temps codes
        | _, _, _ => .incompleteData
      | some _ => .hourlyNotObject
  | _ => .invalidRoot

/-! ## Substring search, used to state the message-content claims -/

/-- Whether the first list is an initial segment of the second. -/
def seq_at_front : List Char → List Char → Bool
  | [], _ => true
  | _ :: _, [] => false
  | a :: as, b :: bs => a == b && seq_at_front as bs

/-- Whether the needle occurs contiguously anywhere in the haystack. -/
def seq_found (needle : List Char) : List Char → Bool
  | [] => seq_at_front needle []
  | b :: bs => seq_at_front needle (b :: bs) || seq_found needle bs

/-- Executable substring test on strings. -/
def str_contains (hay needle : String) : Bool := seq_found needle.data hay.data

/-! ## AppData and the fetch, retry and refresh machinery

The mutable AppData struct (main.c lines 21-43) is reduced to the fields
the core pipeline reads and writes.  GTK widget handles are out of scope;
the latitude and longitude entry texts are passed to each callback as
plain strings.  A guint timer id is modelled by an Option recording
whether the timer is armed and with which delay in seconds (0 meaning not
armed in C); the pending SoupMessage is an Option request identifier. -/

structure AppData where
  location_lat : Option String
  location_lon : Option String
  timezone : Option String
  utc_offset_seconds : Int
  retry_count : Int
  retry_delay : Int
  is_retrying : Bool
  retry_timer : Option Int
  weather_timer : Option Int
  pending : Option Nat
  deriving DecidableEq, Repr

/-- MAX_RETRY_ATTEMPTS of main.c line 17. -/
def MAX_RETRY_ATTEMPTS : Int := 5

/-- INITIAL_RETRY_DELAY of main.c line 18. -/
def INITIAL_RETRY_DELAY : Int := 30

/-- MAX_RETRY_DELAY of main.c line 19. -/
def MAX_RETRY_DELAY : Int := 600

/-- UPDATE_INTERVAL_SECONDS of main.c line 15. -/
def UPDATE_INTERVAL_SECONDS : Int := 3600

/-- The fixed pieces of the request URL of main.c lines 1112-1114. -/
def url_lat_part : String := "https://api.open-meteo.com/v1/forecast?latitude="

def url_lon_part : String := "&longitude="

def url_tail_part : String :=
  "&hourly=temperature_2m,weathercode&forecast_days=2&timezone=auto"

/-- The URL snprintf of main.c lines 1112-1114. -/
def fetch_url (lat lon : String) : String :=
  url_lat_part ++ (lat ++ (url_lon_part ++ (lon ++ url_tail_part)))

/-- The length validation of main.c lines 1103-1107: when either string
exceeds 20 characters, both fall back to the defaults. -/
def validate_coords (lat lon : String) : String × String :=
  if 20 < lat.length ∨ 20 < lon.length then ("52.52", "13.41") else (lat, lon)

/-- The latitude actually used by fetch_weather (main.c lines 1086-1094):
the stored location when present, the built-in default when NULL, and the
entry text whenever it is non-empty. -/
def fetch_effective_lat (s : AppData) (latText : String) : String :=
  let lat := s.location_lat.getD "52.52"
  if 0 < latText.length then latText else lat

/-- The longitude counterpart (main.c lines 1087 and 1095-1100). -/
def fetch_effective_lon (s : AppData) (lonText : String) : String :=
  let lon := s.location_lon.getD "13.41"
  if 0 < lonText.length then lonText else lon

/-- The full URL a fetch would request, after fallback and validation. -/
def fetch_request_url (s : AppData) (latText lonText : String) : String :=
  let v := validate_coords (fetch_effective_lat s latText) (fetch_effective_lon s lonText)
  fetch_url v.1 v.2

/-- Embedding of fetch_weather (main.c lines 1061-1134): unref (cancel)
any pending message, remove any armed retry timer, reset the retry state,
resolve the coordinates, validate them, build the URL, abort when the
snprintf result would not fit the 512-byte buffer, else issue the request
and record it as pending.  The second component lists the requests
cancelled by this dispatch. -/
def fetch_weather (s : AppData) (latText lonText : String) (newReq : Nat) :
    AppData × List Nat :=
  let cancelled := s.pending.toList
  let s1 : AppData := { s with
    pending := none
    retry_timer := none
    retry_count := 0
    retry_delay := 0
    is_retrying := false }
  let url := fetch_request_url s1 latText lonText
  if 512 ≤ url.length then (s1, cancelled)
  else ({ s1 with pending := some newReq }, cancelled)

/-- The shared failure handling of on_weather_response (main.c lines
599-645, duplicated verbatim at 647-681 for a NULL body and 717-748 for
an empty body): while retry_count < MAX_RETRY_ATTEMPTS compute the
clamped exponential delay, set is_retrying, rearm the one-shot retry
timer (removing a previously armed one) and increment retry_count;
otherwise report exhaustion and reset the counters without arming a
timer. -/
def retry_or_give_up (s : AppData) : AppData :=
  if s.retry_count < MAX_RETRY_ATTEMPTS then
    let d0 := INITIAL_RETRY_DELAY * 2 ^ s.retry_count.toNat
    let d := if MAX_RETRY_DELAY < d0 then MAX_RETRY_DELAY else d0
    { s with
      retry_delay := d
      is_retrying := true
      retry_timer := some d
      retry_count := s.retry_count + 1 }
  else
    { s with is_retrying := false, retry_count := 0, retry_delay := 0 }

/-- Embedding of on_weather_response (main.c lines 576-752) for the
request currently pending.  The completion is none on a transport error,
some none when soup returns no body bytes, and some body otherwise; an
empty body string takes the empty-body retry branch.  The second
component is the payload handed to the idle-scheduled parser, none when
no parse is scheduled. -/
def on_weather_response (s : AppData) (result : Option (Option String)) :
    AppData × Option String :=
  let s0 : AppData := { s with pending := none }
  match result with
  | none => (retry_or_give_up s0, none)
  | some none => (retry_or_give_up s0, none)
  | some (some body) =>
    if 0 < body.length then
      ({ s0 with
         retry_count := 0
         retry_delay := 0
         is_retrying := false
         retry_timer := none }, some body)
    else
      (retry_or_give_up s0, none)

/-- Embedding of retry_fetch_weather (main.c lines 1042-1059): the armed
one-shot retry timer fires, re-invokes fetch_weather, and the timer id is
cleared. -/
def retry_fetch_weather (s : AppData) (latText lonText : String) (newReq : Nat) :
    AppData × List Nat :=
  let r := fetch_weather s latText lonText newReq
  ({ r.1 with retry_timer := none }, r.2)

/-- Embedding of update_weather_callback (main.c lines 1156-1180): the
hourly-aligned timer fires, fetches, and rearms itself for
UPDATE_INTERVAL_SECONDS. -/
def update_weather_callback (s : AppData) (latText lonText : String) (newReq : Nat) :
    AppData × List Nat :=
  let r := fetch_weather s latText lonText newReq
  ({ r.1 with weather_timer := some UPDATE_INTERVAL_SECONDS }, r.2)

/-- Embedding of update_location_from_entries (main.c lines 891-920):
each stored coordinate is overwritten only when the corresponding entry
text is non-empty.  The trailing save_location_to_config call writes the
config file and does not change AppData. -/
def update_location_from_entries (s : AppData) (latText lonText : String) : AppData :=
  let s1 := if 0 < latText.length then { s with location_lat := some latText } else s
  if 0 < lonText.length then { s1 with location_lon := some lonText } else s1

/-- Embedding of on_location_update (main.c lines 922-937): reset the
retry counters, remove any armed retry timer, take the entry texts into
the stored location, then fetch immediately. -/
def on_location_update (s : AppData) (latText lonText : String) (newReq : Nat) :
    AppData × List Nat :=
  let s1 : AppData := { s with
    retry_count := 0
    retry_delay := 0
    is_retrying := false
    retry_timer := none }
  fetch_weather (update_location_from_entries s1 latText lonText) latText lonText newReq

/-- The AppData built by main (main.c lines 1442-1458) before config
loading: the Toronto default location and zeroed state. -/
def init_app : AppData :=
  { location_lat := some "43.640"
  , location_lon := some "-79.565"
  , timezone := none
  , utc_offset_seconds := 0
  , retry_count := 0
  , retry_delay := 0
  , is_retrying := false
  , retry_timer := none
  , weather_timer := none
  , pending := none }

/-! ## Location persistence (src/main.c lines 754-889)

The GKeyFile under the Location group is modelled as a record of optional
entries; g_key_file_set_string and get_string round-trip string values,
and get_integer fails (leaving the GError set) exactly when the key is
absent, since set_integer always writes a well-formed integer. -/

structure Location where
  latitude : String
  longitude : String
  timezone : Option String
  utc_offset_seconds : Int
  deriving DecidableEq, Repr

structure ConfigFile where
  latitude : Option String
  longitude : Option String
  timezone : Option String
  utc_offset_seconds : Option Int
  deriving DecidableEq, Repr

/-- Embedding of save_location_to_config (main.c lines 763-793): latitude
and longitude are always written (the function returns early when either
is NULL, which the Location record rules out), the timezone only when
non-NULL, and the UTC offset always. -/
def save_location_to_config (loc : Location) : ConfigFile :=
  { latitude := some loc.latitude
  , longitude := some loc.longitude
  , timezone := loc.timezone
  , utc_offset_seconds := some loc.utc_offset_seconds }

/-- Embedding of load_location_from_config (main.c lines 795-889) applied
to the AppData location fields d: latitude and longitude are taken only
when present and non-empty, the timezone only when present and non-empty,
and the UTC offset whenever get_integer succeeds. -/
def load_location_from_config (cfg : ConfigFile) (d : Location) : Location :=
  let d1 := match cfg.latitude with
    | some l => if 0 < l.length then { d with latitude := l } else d
    | none => d
  let d2 := match cfg.longitude with
    | some l => if 0 < l.length then { d1 with longitude := l } else d1
    | none => d1
  let d3 := match cfg.timezone with
    | some t => if 0 < t.length then { d2 with timezone := some t } else d2
    | none => d2
  match cfg.utc_offset_seconds with
  | some o => { d3 with utc_offset_seconds := o }
  | none => d3

/-- The location fields of init_app, the state into which main loads the
config at startup. -/
def default_location : Location :=
  { latitude := "43.640"
  , longitude := "-79.565"
  , timezone := none
  , utc_offset_seconds := 0 }

/-- Concrete location used to exercise the config round trip. -/
def roundtrip_demo_location : Location :=
  { latitude := "52.52"
  , longitude := "13.41"
  , timezone := some "Europe/Berlin"
  , utc_offset_seconds := 3600 }

/-! ## Spec-side auxiliary definitions and concrete instances -/

/-- Modelled from the spec words for the Location invariant: a decimal
string has an optional leading minus sign followed by digits with at most
one decimal point, and contains at least one digit.  The code performs no
such check; this definition only states the claim. -/
def spec_is_decimal_string (s : String) : Bool :=
  let core := match s.data with
    | '-' :: cs => cs
    | cs => cs
  core.any Char.isDigit && core.all (fun c => c.isDigit || c == '.')
    && core.count '.' ≤ 1

/-- Property of a dispatch path: the retry state is reset to the idle
triple, the retry timer is disarmed, the new request is the only pending
one, and exactly the previously pending request was cancelled. -/
def dispatch_resets (s : AppData) (r : AppData × List Nat) (newReq : Nat) : Prop :=
  r.1.retry_count = 0 ∧ r.1.retry_delay = 0 ∧ r.1.is_retrying = false ∧
  r.1.retry_timer = none ∧ r.1.pending = some newReq ∧ r.2 = s.pending.toList

/-- Trace states of the consecutive-failure run of the C1 claim: the
startup fetch, a first failure, the retry timer firing and re-invoking
the fetch, and a second failure. -/
def c1_after_startup_fetch : AppData := (fetch_weather init_app "" "" 1).1

def c1_after_failure_1 : AppData := (on_weather_response c1_after_startup_fetch none).1

def c1_after_retry_fires : AppData := (retry_fetch_weather c1_after_failure_1 "" "" 2).1

def c1_after_failure_2 : AppData := (on_weather_response c1_after_retry_fires none).1

/-- A 500-character reason string, long enough to overflow the 512-byte
message buffer of the API-error branch. -/
def long_reason : String := String.mk (List.replicate 500 'a')

/-- Root members of the truncation counterexample payload. -/
def cex_members : List (String × JsonValue) :=
  [("error", JsonValue.jbool true), ("reason", JsonValue.jstr long_reason)]

/-- The message the API-error branch produces for cex_members: the prefix
plus the 500 reason characters fill the 511 available bytes, so the keys
suffix is cut off entirely. -/
def cex_truncated_message : String := String.mk ("API Error: ".data ++ List.replicate 500 'a')

/-- The payload of the spec instance: error true with a reason string. -/
def witness_members : List (String × JsonValue) :=
  [("error", JsonValue.jbool true), ("reason", JsonValue.jstr "bad coordinates")]

/-- Demo series for the window-selection witness: eight hourly rows of
2026-10-11 from 03:00 to 10:00. -/
def demo_rows : List HourlyRow :=
  [ { time := "2026-10-11T03:00", temp := 10, code := 0 }
  , { time := "2026-10-11T04:00", temp := 11, code := 1 }
  , { time := "2026-10-11T05:00", temp := 12, code := 2 }
  , { time := "2026-10-11T06:00", temp := 13, code := 3 }
  , { time := "2026-10-11T07:00", temp := 14, code := 61 }
  , { time := "2026-10-11T08:00", temp := 15, code := 71 }
  , { time := "2026-10-11T09:00", temp := 16, code := 95 }
  , { time := "2026-10-11T10:00", temp := 17, code := 45 } ]

/-- Demo series for the stale-fallback witness: three rows all on
2026-10-10, strictly before the current local day used below. -/
def stale_rows : List HourlyRow :=
  [ { time := "2026-10-10T21:00", temp := 8, code := 2 }
  , { time := "2026-10-10T22:00", temp := 7, code := 2 }
  , { time := "2026-10-10T23:00", temp := 6, code := 3 } ]

/-! ## Helper lemmas -/

theorem string_length_pos {s : String} (h : s ≠ "") : 0 < s.length := by
  cases s with
  | mk data =>
    cases data with
    | nil => simp at h
    | cons c cs => simp [String.length]

theorem seq_at_front_append (as bs : List Char) : seq_at_front as (as ++ bs) = true := by
  induction as with
  | nil => rfl
  | cons a as ih => simp [seq_at_front, ih]

theorem seq_found_of_front {n h : List Char} (hf : seq_at_front n h = true) :
    seq_found n h = true := by
  cases h with
  | nil => simpa [seq_found] using hf
  | cons b bs => simp [seq_found, hf]

theorem seq_found_append_left (a : List Char) {n h : List Char}
    (hf : seq_found n h = true) : seq_found n (a ++ h) = true := by
  induction a with
  | nil => simpa using hf
  | cons c cs ih => simp [seq_found, ih]

theorem str_contains_append_left (a b n : String) (hb : str_contains b n = true) :
    str_contains (a ++ b) n = true := by
  unfold str_contains at hb ⊢
  rw [String.data_append]
  exact seq_found_append_left a.data hb

theorem str_contains_start (n post : String) : str_contains (n ++ post) n = true := by
  unfold str_contains
  rw [String.data_append]
  exact seq_found_of_front (seq_at_front_append n.data post.data)

theorem snprintf512_of_le {s : String} (h : s.length ≤ 511) : snprintf512 s = s := by
  cases s with
  | mk data =>
    simp only [String.length] at h
    simp [snprintf512, List.take_of_length_le h]

theorem first_future_index_some_lt {p : String → Bool} {ts : List String} {i : Nat}
    (h : first_future_index p ts = some i) : i < ts.length := by
  induction ts generalizing i with
  | nil => simp [first_future_index] at h
  | cons t ts ih =>
    by_cases hp : p t
    · simp [first_future_index, hp] at h
      simp [← h]
    · simp [first_future_index, hp, Option.map_eq_some'] at h
      obtain ⟨j, hj, rfl⟩ := h
      have := ih hj
      simp
      omega

theorem first_future_index_some_pred {p : String → Bool} {ts : List String} {i : Nat}
    (h : first_future_index p ts = some i) : ∃ t, ts[i]? = some t ∧ p t = true := by
  induction ts generalizing i with
  | nil => simp [first_future_index] at h
  | cons t ts ih =>
    by_cases hp : p t
    · simp [first_future_index, hp] at h
      exact ⟨t, by simp [← h], hp⟩
    · simp [first_future_index, hp, Option.map_eq_some'] at h
      obtain ⟨j, hj, rfl⟩ := h
      obtain ⟨u, hu, hpu⟩ := ih hj
      exact ⟨u, by simpa using hu, hpu⟩

theorem first_future_index_some_min {p : String → Bool} {ts : List String} {i : Nat}
    (h : first_future_index p ts = some i) :
    ∀ j, j < i → ∀ t, ts[j]? = some t → p t = false := by
  induction ts generalizing i with
  | nil => simp [first_future_index] at h
  | cons t ts ih =>
    by_cases hp : p t
    · simp [first_future_index, hp] at h
      intro j hj
      omega
    · simp [first_future_index, hp, Option.map_eq_some'] at h
      obtain ⟨k, hk, rfl⟩ := h
      intro j hj u hu
      cases j with
      | zero =>
        simp at hu
        subst hu
        simpa using hp
      | succ j =>
        simp at hu
        exact ih hk j (by omega) u hu

theorem first_future_index_none_all {p : String → Bool} {ts : List String}
    (h : first_future_index p ts = none) : ∀ t ∈ ts, p t = false := by
  induction ts with
  | nil => simp
  | cons t ts ih =>
    by_cases hp : p t
    · simp [first_future_index, hp] at h
    · simp [first_future_index, hp, Option.map_eq_none'] at h
      intro u hu
      rcases List.mem_cons.mp hu with rfl | hu
      · simpa using hp
      · exact ih h u hu

theorem fetch_url_length (lat lon : String) :
    (fetch_url lat lon).length =
      url_lat_part.length + lat.length + url_lon_part.length + lon.length
        + url_tail_part.length := by
  simp [fetch_url, String.length_append]
  omega

theorem validate_coords_length (lat lon : String) :
    (validate_coords lat lon).1.length ≤ 20 ∧ (validate_coords lat lon).2.length ≤ 20 := by
  unfold validate_coords
  split_ifs with h
  · exact ⟨by decide, by decide⟩
  · push_neg at h
    exact ⟨h.1, h.2⟩

theorem fetch_url_valid_lt (lat lon : String) :
    (fetch_url (validate_coords lat lon).1 (validate_coords lat lon).2).length < 512 := by
  obtain ⟨h1, h2⟩ := validate_coords_length lat lon
  rw [fetch_url_length]
  have hp : url_lat_part.length ≤ 60 := by decide
  have hm : url_lon_part.length ≤ 20 := by decide
  have ht : url_tail_part.length ≤ 70 := by decide
  omega

theorem fetch_request_url_lt (s : AppData) (latText lonText : String) :
    (fetch_request_url s latText lonText).length < 512 := by
  unfold fetch_request_url
  exact fetch_url_valid_lt _ _

theorem fetch_weather_eq (s : AppData) (latText lonText : String) (newReq : Nat) :
    fetch_weather s latText lonText newReq =
      ({ s with
          pending := some newReq
          retry_timer := none
          retry_count := 0
          retry_delay := 0
          is_retrying := false }, s.pending.toList) := by
  have hlt := fetch_request_url_lt
    ({ s with
        pending := none
        retry_timer := none
        retry_count := 0
        retry_delay := 0
        is_retrying := false }) latText lonText
  simp only [fetch_weather]
  rw [if_neg (by omega)]

theorem update_location_pending (s : AppData) (latText lonText : String) :
    (update_location_from_entries s latText lonText).pending = s.pending := by
  simp only [update_location_from_entries]
  split_ifs <;> rfl

/-! ## Claim theorems -/

/-- C5 counterexample: the claim quantifies over every integer weather
code and sends every code outside the listed ranges to Unknown, but a
negative code such as -1 satisfies the first inequality of the C chain
and yields Cloudy with the cloud icon, not Unknown. -/
theorem weather_code_table_counterexample :
    get_weather_description (-1) = "Cloudy" ∧ spec_weather_description (-1) = "Unknown" ∧
    get_weather_icon (-1) = "⛅" ∧ spec_weather_icon (-1) = "❓" ∧
    get_weather_description (-1) ≠ spec_weather_description (-1) := by decide

set_option maxHeartbeats 1600000 in
/-- C5 amended: for every non-negative integer weather code,
get_weather_description and get_weather_icon agree with the fixed ordered
range table, including the boundary codes 3, 4, 49 and 50, and every code
above 99 yields Unknown. -/
theorem weather_code_table_nonneg (code : Int) (h : 0 ≤ code) :
    get_weather_description code = spec_weather_description code ∧
    get_weather_icon code = spec_weather_icon code := by
  by_cases hbig : 100 ≤ code
  · constructor
    · unfold get_weather_description spec_weather_description
      repeat rw [if_neg (by omega)]
    · unfold get_weather_icon spec_weather_icon
      repeat rw [if_neg (by omega)]
  · push_neg at hbig
    constructor
    · interval_cases code <;> rfl
    · interval_cases code <;> rfl

theorem weather_code_table_nonneg_witness :
    (0 : Int) ≤ 4 ∧
    (get_weather_description 4 = spec_weather_description 4 ∧
      get_weather_icon 4 = spec_weather_icon 4) :=
  ⟨by decide, weather_code_table_nonneg 4 (by decide)⟩

/-- C4: a fetch completion with a non-empty response body, in any retry
state, resets the retry counters to the idle triple, disarms any armed
retry timer, and hands exactly the body to the idle-scheduled parser. -/
theorem success_resets_retry_state (s : AppData) (body : String) (h : 0 < body.length) :
    (on_weather_response s (some (some body))).1.retry_count = 0 ∧
    (on_weather_response s (some (some body))).1.retry_delay = 0 ∧
    (on_weather_response s (some (some body))).1.is_retrying = false ∧
    (on_weather_response s (some (some body))).1.retry_timer = none ∧
    (on_weather_response s (some (some body))).2 = some body := by
  simp [on_weather_response, h]

theorem success_resets_retry_state_witness :
    0 < "x".length ∧
    ((on_weather_response c1_after_failure_1 (some (some "x"))).1.retry_count = 0 ∧
     (on_weather_response c1_after_failure_1 (some (some "x"))).1.retry_delay = 0 ∧
     (on_weather_response c1_after_failure_1 (some (some "x"))).1.is_retrying = false ∧
     (on_weather_response c1_after_failure_1 (some (some "x"))).1.retry_timer = none ∧
     (on_weather_response c1_after_failure_1 (some (some "x"))).2 = some "x") :=
  ⟨by decide, success_resets_retry_state c1_after_failure_1 "x" (by decide)⟩

/-- C3: every dispatch path - the startup fetch, the hourly timer, the
retry timer firing, and the manual location update - cancels exactly the
prior pending request, disarms the retry timer, and resets the retry
state to the idle triple before the new request becomes the only pending
one. -/
theorem dispatch_cancels_and_resets (s : AppData) (latText lonText : String) (newReq : Nat) :
    dispatch_resets s (fetch_weather s latText lonText newReq) newReq ∧
    dispatch_resets s (update_weather_callback s latText lonText newReq) newReq ∧
    dispatch_resets s (retry_fetch_weather s latText lonText newReq) newReq ∧
    dispatch_resets s (on_location_update s latText lonText newReq) newReq := by
  refine ⟨?_, ?_, ?_, ?_⟩ <;>
    simp [dispatch_resets, fetch_weather_eq, update_weather_callback,
      retry_fetch_weather, on_location_update, update_location_pending]

set_option maxRecDepth 8192 in
/-- C1 code-bug evidence: in the consecutive-failure run in which each
armed one-shot retry timer fires and re-invokes the fetch, the first
failure arms a 30-second timer with retry_count 1, the firing timer goes
through fetch_weather which resets retry_count to 0, and the second
failure therefore computes a 30-second delay again instead of the claimed
60 seconds; the delays stay at 30 forever and the exhaustion branch is
unreachable, contradicting the backoff sequence the code itself documents. -/
theorem retry_backoff_reset_bug :
    c1_after_failure_1.retry_delay = 30 ∧ c1_after_failure_1.retry_count = 1 ∧
    c1_after_failure_1.retry_timer = some 30 ∧ c1_after_failure_1.is_retrying = true ∧
    c1_after_retry_fires.retry_count = 0 ∧ c1_after_retry_fires.is_retrying = false ∧
    c1_after_failure_2.retry_delay = 30 ∧ c1_after_failure_2.retry_count = 1 ∧
    c1_after_failure_2.retry_timer = some 30 := by decide

/-- C7 counterexample: the code validates only the lengths of the
coordinate strings before embedding them; a malformed non-decimal value
of acceptable length such as abc is not replaced by the defaults and is
embedded into the request URL as-is. -/
theorem url_validation_counterexample :
    validate_coords "abc" "13.41" = ("abc", "13.41") ∧
    spec_is_decimal_string "abc" = false ∧
    str_contains (fetch_request_url ({ init_app with location_lat := some "abc" }) "" "")
      "latitude=abc" = true := by decide

/-- C7 amended: the only validation before URL embedding is the length
bound - when either coordinate exceeds 20 characters both fall back to
the defaults, and otherwise both pass through unchanged, decimal or not;
entry text is used only when non-empty.  The validated strings never
exceed 20 characters, so the URL always fits the 512-byte buffer and the
request is always issued. -/
theorem url_construction_never_overflows (la lo : String) (s : AppData)
    (latText lonText : String) (newReq : Nat) :
    ((validate_coords la lo).1.length ≤ 20 ∧ (validate_coords la lo).2.length ≤ 20) ∧
    (la.length ≤ 20 → lo.length ≤ 20 → validate_coords la lo = (la, lo)) ∧
    ((20 < la.length ∨ 20 < lo.length) → validate_coords la lo = ("52.52", "13.41")) ∧
    (fetch_url (validate_coords la lo).1 (validate_coords la lo).2).length < 512 ∧
    (fetch_request_url s latText lonText).length < 512 ∧
    (fetch_weather s latText lonText newReq).1.pending = some newReq := by
  refine ⟨validate_coords_length la lo, ?_, ?_, fetch_url_valid_lt la lo,
    fetch_request_url_lt s latText lonText, ?_⟩
  · intro h1 h2
    unfold validate_coords
    rw [if_neg (by omega)]
  · intro h
    unfold validate_coords
    rw [if_pos h]
  · rw [fetch_weather_eq]

theorem url_construction_never_overflows_witness :
    "abc".length ≤ 20 ∧ "13.41".length ≤ 20 ∧
    validate_coords "abc" "13.41" = ("abc", "13.41") ∧
    (fetch_weather init_app "" "" 3).1.pending = some 3 :=
  ⟨by decide, by decide,
    (url_construction_never_overflows "abc" "13.41" init_app "" "" 3).2.1
      (by decide) (by decide),
    (url_construction_never_overflows "abc" "13.41" init_app "" "" 3).2.2.2.2.2⟩

/-- C8 counterexample: a Location whose timezone is the empty string is
written to the config file by the saver, which only checks for NULL, but
the loader takes a timezone only when non-empty, so the round trip drops
it: the loaded Location has no timezone and differs from the saved one. -/
theorem config_roundtrip_counterexample :
    load_location_from_config
        (save_location_to_config
          { latitude := "1.0", longitude := "2.0", timezone := some "", utc_offset_seconds := 5 })
        default_location =
      { latitude := "1.0", longitude := "2.0", timezone := none, utc_offset_seconds := 5 } ∧
    ({ latitude := "1.0", longitude := "2.0", timezone := some "", utc_offset_seconds := 5 } : Location) ≠
      { latitude := "1.0", longitude := "2.0", timezone := none, utc_offset_seconds := 5 } := by
  decide

/-- C8 amended: for every Location with non-empty latitude and longitude
and a timezone that is either absent or non-empty, saving and then
loading into location state whose timezone is unset (as at startup)
reproduces identical latitude, longitude, timezone and UTC-offset values. -/
theorem config_roundtrip (loc d : Location) (hlat : loc.latitude ≠ "")
    (hlon : loc.longitude ≠ "") (htz : ∀ t, loc.timezone = some t → t ≠ "")
    (hd : d.timezone = none) :
    load_location_from_config (save_location_to_config loc) d = loc := by
  obtain ⟨lat, lon, tz, off⟩ := loc
  obtain ⟨dlat, dlon, dtz, doff⟩ := d
  simp only at hlat hlon htz hd
  subst hd
  cases tz with
  | none =>
    simp [save_location_to_config, load_location_from_config,
      string_length_pos hlat, string_length_pos hlon]
  | some t =>
    have ht : t ≠ "" := htz t rfl
    simp [save_location_to_config, load_location_from_config,
      string_length_pos hlat, string_length_pos hlon, string_length_pos ht]

theorem config_roundtrip_witness :
    roundtrip_demo_location.latitude ≠ "" ∧
    roundtrip_demo_location.longitude ≠ "" ∧
    default_location.timezone = none ∧
    load_location_from_config (save_location_to_config roundtrip_demo_location)
      default_location = roundtrip_demo_location :=
  ⟨by decide, by decide, by decide,
    config_roundtrip roundtrip_demo_location default_location (by decide) (by decide)
      (fun t ht => by injection ht with h; subst h; decide) (by decide)⟩

/-- C10: an empty entry text leaves the corresponding stored coordinate
unchanged - only fields with non-empty entry text are overwritten - and
the coordinate fetch_weather embeds then falls back to the stored value,
so an empty edit never clobbers a stored coordinate. -/
theorem empty_entry_preserves_location (s : AppData) (latText lonText : String) :
    (latText = "" → (update_location_from_entries s latText lonText).location_lat = s.location_lat) ∧
    (lonText = "" → (update_location_from_entries s latText lonText).location_lon = s.location_lon) ∧
    (latText ≠ "" → (update_location_from_entries s latText lonText).location_lat = some latText) ∧
    (lonText ≠ "" → (update_location_from_entries s latText lonText).location_lon = some lonText) ∧
    (latText = "" → ∀ l, s.location_lat = some l → fetch_effective_lat s latText = l) ∧
    (lonText = "" → ∀ l, s.location_lon = some l → fetch_effective_lon s lonText = l) := by
  refine ⟨?_, ?_, ?_, ?_, ?_, ?_⟩
  · intro h
    subst h
    simp only [update_location_from_entries]
    split_ifs with h1 h2 <;> simp_all
  · intro h
    subst h
    simp only [update_location_from_entries]
    split_ifs with h1 h2 <;> simp_all
  · intro h
    have hl : 0 < latText.length := string_length_pos h
    simp only [update_location_from_entries]
    split_ifs <;> simp_all
  · intro h
    have hl : 0 < lonText.length := string_length_pos h
    simp only [update_location_from_entries]
    split_ifs <;> simp_all
  · intro h l hl
    subst h
    simp [fetch_effective_lat, hl]
  · intro h l hl
    subst h
    simp [fetch_effective_lon, hl]

theorem empty_entry_preserves_location_witness :
    (update_location_from_entries init_app "" "").location_lat = init_app.location_lat ∧
    (update_location_from_entries init_app "" "").location_lon = init_app.location_lon ∧
    fetch_effective_lat init_app "" = "43.640" ∧
    fetch_effective_lon init_app "" = "-79.565" :=
  ⟨(empty_entry_preserves_location init_app "" "").1 rfl,
   (empty_entry_preserves_location init_app "" "").2.1 rfl,
   (empty_entry_preserves_location init_app "" "").2.2.2.2.1 rfl "43.640" rfl,
   (empty_entry_preserves_location init_app "" "").2.2.2.2.2 rfl "-79.565" rfl⟩

theorem str_contains_at (pre mid post : String) :
    str_contains (pre ++ (mid ++ post)) mid = true :=
  str_contains_append_left pre (mid ++ post) mid (str_contains_start mid post)

/-- C2: for a raw hourly series of length at least 6, the selected window
is the slice of up to six consecutive rows starting at start_index; it is
exactly six rows when at least six remain from there, all remaining rows
when fewer remain, and never more than six; and when some row is current
or future, start_index is the first such index. -/
theorem forecast_window_selection (cy cm cd ch : Int) (rows : List HourlyRow)
    (hlen : 6 ≤ rows.length) :
    select_window cy cm cd ch rows =
      (rows.drop (find_start_index cy cm cd ch (rows.map (fun r => r.time)))).take 6 ∧
    (select_window cy cm cd ch rows).length ≤ 6 ∧
    (6 ≤ rows.length - find_start_index cy cm cd ch (rows.map (fun r => r.time)) →
      (select_window cy cm cd ch rows).length = 6) ∧
    (rows.length - find_start_index cy cm cd ch (rows.map (fun r => r.time)) < 6 →
      select_window cy cm cd ch rows =
        rows.drop (find_start_index cy cm cd ch (rows.map (fun r => r.time)))) ∧
    (∀ j, j < (select_window cy cm cd ch rows).length →
      (select_window cy cm cd ch rows)[j]? =
        rows[find_start_index cy cm cd ch (rows.map (fun r => r.time)) + j]?) ∧
    ((∃ r ∈ rows, row_is_current_or_future cy cm cd ch r.time = true) →
      find_start_index cy cm cd ch (rows.map (fun r => r.time)) < rows.length ∧
      (∃ t, (rows.map (fun r => r.time))[find_start_index cy cm cd ch
            (rows.map (fun r => r.time))]? = some t ∧
        row_is_current_or_future cy cm cd ch t = true) ∧
      (∀ j, j < find_start_index cy cm cd ch (rows.map (fun r => r.time)) →
        ∀ t, (rows.map (fun r => r.time))[j]? = some t →
          row_is_current_or_future cy cm cd ch t = false)) := by
  refine ⟨rfl, ?_, ?_, ?_, ?_, ?_⟩
  · simp [select_window, hours_to_show, List.length_take]
  · intro h
    simp [select_window, hours_to_show, List.length_take, List.length_drop]
    omega
  · intro h
    have hle : (rows.drop (find_start_index cy cm cd ch
        (rows.map (fun r => r.time)))).length ≤ 6 := by
      simp [List.length_drop]
      omega
    exact List.take_of_length_le hle
  · intro j hj
    have hj6 : j < 6 := by
      simp [select_window, hours_to_show, List.length_take] at hj
      omega
    show ((rows.drop (find_start_index cy cm cd ch
        (rows.map (fun r => r.time)))).take 6)[j]? = _
    rw [List.getElem?_take, if_pos hj6, List.getElem?_drop]
  · rintro ⟨r, hr, hpr⟩
    cases hffi : first_future_index (row_is_current_or_future cy cm cd ch)
        (rows.map (fun r => r.time)) with
    | none =>
      exact absurd hpr (by
        simpa using first_future_index_none_all hffi r.time
          (List.mem_map_of_mem (fun r => r.time) hr))
    | some i =>
      have hs : find_start_index cy cm cd ch (rows.map (fun r => r.time)) = i := by
        simp [find_start_index, hffi]
      have hlt := first_future_index_some_lt hffi
      rw [List.length_map] at hlt
      refine ⟨by omega, ?_, ?_⟩
      · rw [hs]
        exact first_future_index_some_pred hffi
      · rw [hs]
        exact first_future_index_some_min hffi

theorem forecast_window_selection_witness :
    6 ≤ demo_rows.length ∧
    select_window 2026 10 11 5 demo_rows =
      (demo_rows.drop (find_start_index 2026 10 11 5
        (demo_rows.map (fun r => r.time)))).take 6 ∧
    (select_window 2026 10 11 5 demo_rows).length ≤ 6 ∧
    find_start_index 2026 10 11 5 (demo_rows.map (fun r => r.time)) = 2 ∧
    (select_window 2026 10 11 5 demo_rows).map (fun r => r.time) =
      [ "2026-10-11T05:00", "2026-10-11T06:00", "2026-10-11T07:00"
      , "2026-10-11T08:00", "2026-10-11T09:00", "2026-10-11T10:00" ] :=
  ⟨by decide,
   (forecast_window_selection 2026 10 11 5 demo_rows (by decide)).1,
   (forecast_window_selection 2026 10 11 5 demo_rows (by decide)).2.1,
   by decide, by decide⟩

/-- C9: when every row of the series lies strictly before the current
local day and hour, the search loop never fires, start_index stays at its
initial value 0, and the first up-to-six stale rows are displayed rather
than an empty window. -/
theorem stale_series_fallback (cy cm cd ch : Int) (rows : List HourlyRow)
    (hall : ∀ r ∈ rows, row_is_current_or_future cy cm cd ch r.time = false) :
    find_start_index cy cm cd ch (rows.map (fun r => r.time)) = 0 ∧
    select_window cy cm cd ch rows = rows.take 6 ∧
    (rows ≠ [] → select_window cy cm cd ch rows ≠ []) := by
  have hnone : first_future_index (row_is_current_or_future cy cm cd ch)
      (rows.map (fun r => r.time)) = none := by
    cases hffi : first_future_index (row_is_current_or_future cy cm cd ch)
        (rows.map (fun r => r.time)) with
    | none => rfl
    | some i =>
      exfalso
      obtain ⟨t, ht, hpt⟩ := first_future_index_some_pred hffi
      rw [List.getElem?_map] at ht
      obtain ⟨u, hu, rfl⟩ := Option.map_eq_some'.mp ht
      exact absurd hpt (by simp [hall u (List.getElem?_mem hu)])
  have h0 : find_start_index cy cm cd ch (rows.map (fun r => r.time)) = 0 := by
    simp [find_start_index, hnone]
  have h2 : select_window cy cm cd ch rows = rows.take 6 := by
    simp [select_window, hours_to_show, h0]
  refine ⟨h0, h2, ?_⟩
  intro hne hcontra
  rw [h2] at hcontra
  rcases List.take_eq_nil_iff.mp hcontra with h | h
  · omega
  · exact hne h

theorem stale_series_fallback_witness :
    (∀ r ∈ stale_rows, row_is_current_or_future 2026 10 11 5 r.time = false) ∧
    find_start_index 2026 10 11 5 (stale_rows.map (fun r => r.time)) = 0 ∧
    select_window 2026 10 11 5 stale_rows = stale_rows.take 6 ∧
    select_window 2026 10 11 5 stale_rows ≠ [] :=
  ⟨by decide,
   (stale_series_fallback 2026 10 11 5 stale_rows (by decide)).1,
   (stale_series_fallback 2026 10 11 5 stale_rows (by decide)).2.1,
   (stale_series_fallback 2026 10 11 5 stale_rows (by decide)).2.2 (by decide)⟩

/-- C6 amended: a root object with an error member always parses to an
API-error result and never to a forecast window; provided the formatted
message fits the 512-byte snprintf buffer (511 characters), the message
is exactly the one built by the error branch, it contains the comma-joined
set of top-level keys, a boolean-true error with a string reason
contributes that reason text, a string error value appears directly, and
an unrecognized error type is reported by its type name. -/
theorem api_error_branch (ms : List (String × JsonValue)) (ev : JsonValue)
    (hev : member_lookup "error" ms = some ev)
    (hfit : (api_error_raw ms ev).length ≤ 511) :
    parse_weather_json (JsonValue.jobj ms) = ParseResult.apiError (api_error_raw ms ev) ∧
    str_contains (api_error_raw ms ev) (keys_string ms) = true ∧
    (∀ r, ev = JsonValue.jbool true → member_lookup "reason" ms = some (JsonValue.jstr r) →
      str_contains (api_error_raw ms ev) r = true) ∧
    (∀ t, ev = JsonValue.jstr t → str_contains (api_error_raw ms ev) t = true) ∧
    (unrecognized_error_type ev = true →
      str_contains (api_error_raw ms ev) (gtype_name ev) = true) := by
  refine ⟨?_, ?_, ?_, ?_, ?_⟩
  · simp [parse_weather_json, hev, snprintf512_of_le hfit]
  · cases ev with
    | jbool b =>
      cases b with
      | false =>
        simp only [api_error_raw]
        exact str_contains_at _ _ _
      | true =>
        cases hr : member_lookup "reason" ms with
        | none =>
          simp only [api_error_raw, hr]
          exact str_contains_at _ _ _
        | some v =>
          cases v with
          | jstr r =>
            simp only [api_error_raw, hr]
            exact str_contains_append_left _ _ _
              (str_contains_append_left _ _ _ (str_contains_at _ _ _))
          | jnull =>
            simp only [api_error_raw, hr]
            exact str_contains_at _ _ _
          | jbool c =>
            simp only [api_error_raw, hr]
            exact str_contains_at _ _ _
          | jint n =>
            simp only [api_error_raw, hr]
            exact str_contains_at _ _ _
          | jfloat n =>
            simp only [api_error_raw, hr]
            exact str_contains_at _ _ _
          | jarr es =>
            simp only [api_error_raw, hr]
            exact str_contains_at _ _ _
          | jobj mm =>
            simp only [api_error_raw, hr]
            exact str_contains_at _ _ _
    | jstr t =>
      simp only [api_error_raw]
      exact str_contains_append_left _ _ _
        (str_contains_append_left _ _ _ (str_contains_at _ _ _))
    | jnull =>
      simp only [api_error_raw]
      exact str_contains_append_left _ _ _
        (str_contains_append_left _ _ _ (str_contains_at _ _ _))
    | jint n =>
      simp only [api_error_raw]
      exact str_contains_append_left _ _ _
        (str_contains_append_left _ _ _ (str_contains_at _ _ _))
    | jfloat n =>
      simp only [api_error_raw]
      exact str_contains_append_left _ _ _
        (str_contains_append_left _ _ _ (str_contains_at _ _ _))
    | jarr es =>
      simp only [api_error_raw]
      exact str_contains_append_left _ _ _
        (str_contains_append_left _ _ _ (str_contains_at _ _ _))
    | jobj mm =>
      simp only [api_error_raw]
      exact str_contains_append_left _ _ _
        (str_contains_append_left _ _ _ (str_contains_at _ _ _))
  · intro r hb hr
    subst hb
    simp only [api_error_raw, hr]
    exact str_contains_at _ _ _
  · intro t ht
    subst ht
    simp only [api_error_raw]
    exact str_contains_at _ _ _
  · intro hun
    cases ev with
    | jbool b => simp [unrecognized_error_type] at hun
    | jstr t => simp [unrecognized_error_type] at hun
    | jnull =>
      simp only [api_error_raw, gtype_name]
      exact str_contains_at _ _ _
    | jint n =>
      simp only [api_error_raw, gtype_name]
      exact str_contains_at _ _ _
    | jfloat n =>
      simp only [api_error_raw, gtype_name]
      exact str_contains_at _ _ _
    | jarr es =>
      simp only [api_error_raw, gtype_name]
      exact str_contains_at _ _ _
    | jobj mm =>
      simp only [api_error_raw, gtype_name]
      exact str_contains_at _ _ _

theorem api_error_branch_witness :
    member_lookup "error" witness_members = some (JsonValue.jbool true) ∧
    (api_error_raw witness_members (JsonValue.jbool true)).length ≤ 511 ∧
    parse_weather_json (JsonValue.jobj witness_members) =
      ParseResult.apiError (api_error_raw witness_members (JsonValue.jbool true)) ∧
    str_contains (api_error_raw witness_members (JsonValue.jbool true))
      "bad coordinates" = true ∧
    str_contains (api_error_raw witness_members (JsonValue.jbool true))
      (keys_string witness_members) = true :=
  ⟨rfl, by decide,
   (api_error_branch witness_members (JsonValue.jbool true) rfl (by decide)).1,
   (api_error_branch witness_members (JsonValue.jbool true) rfl (by decide)).2.2.1
     "bad coordinates" rfl rfl,
   (api_error_branch witness_members (JsonValue.jbool true) rfl (by decide)).2.1⟩

set_option maxRecDepth 40000 in
/-- C6 counterexample: with a 500-character reason string the formatted
message exceeds the 512-byte buffer, snprintf truncates it to 511
characters, and the truncated message no longer includes the key set, so
the every-case key-inclusion part of the claim is false as stated. -/
theorem api_error_truncation_counterexample :
    (parse_weather_json (JsonValue.jobj cex_members)).apiErrorMsg =
      some cex_truncated_message ∧
    keys_string cex_members = "error, reason" ∧
    str_contains cex_truncated_message "error, reason" = false := by decide

end WeatherClock
